import Mathlib

/-!
Track-matte transition: a shallow embedding of `src/index.js`

The program composites two still images with a video through a colour-key test in a fragment
shader.  This file embeds the fragment shader, the shader-program builder, the geometry data, the
draw call, one tick of the render loop and the two readiness gates of the start-up sequence, and
proves properties of them.

Conventions of the embedding:

* graphics calls and console output are recorded, in program order, as a list of `Cmd`;
* what the graphics context answers (compile status, link status, locations) is a parameter,
  `GLContext`;
* a JavaScript object such as `programInfo.uniformLocations` is an association list from property
  names to values, and reading a property that is absent yields `none` (JavaScript `undefined`);
* colour channels and vertex coordinates are exact rationals: the program performs no arithmetic
  on them, it only compares a channel with zero and copies values.
-/

namespace TrackMatte

/-! ## The fragment shader (`src/index.js`, lines 16-31) -/

/-- A `vec4` colour. -/
structure Vec4 where
  r : ℚ
  g : ℚ
  b : ℚ
  a : ℚ
deriving DecidableEq

/-- A `vec2` texture coordinate. -/
abbrev Vec2 := ℚ × ℚ

/-- A `sampler2D`: the texture bound to the sampler, as a function from coordinates to colours. -/
abbrev Sampler2D := Vec2 → Vec4

/-- The GLSL built-in `texture2D(sampler, coord)`. -/
def texture2D (sampler : Sampler2D) (coord : Vec2) : Vec4 := sampler coord

/-- The body of `main` of the fragment shader; the result is `gl_FragColor`. -/
def fragmentShader (uSampler1 uSampler2 uSampler3 : Sampler2D) (vTextureCoord : Vec2) : Vec4 :=
  let videoColor := texture2D uSampler3 vTextureCoord
  let sceneColor :=
    if videoColor.r = 0 ∧ videoColor.g = 0 ∧ videoColor.b = 0 then
      texture2D uSampler1 vTextureCoord
    else
      texture2D uSampler2 vTextureCoord
  ⟨sceneColor.r, sceneColor.g, sceneColor.b, sceneColor.a⟩

/-! ## Handles, values and the command trace -/

/-- A shader stage, the `type` argument of `loadShader`: `gl.VERTEX_SHADER` or
`gl.FRAGMENT_SHADER`. -/
inductive ShaderType
  | VERTEX_SHADER
  | FRAGMENT_SHADER
deriving DecidableEq, Repr

/-- A shader object returned by `gl.createShader(type)`, with the source text given to it. -/
structure Shader where
  type : ShaderType
  source : String
deriving DecidableEq, Repr

/-- A program object returned by `gl.createProgram()`, with the two shaders attached to it; a
stage whose `loadShader` returned `null` is `none`. -/
structure Program where
  vertexShader : Option Shader
  fragmentShader : Option Shader
deriving DecidableEq, Repr

/-- A texture object returned by `gl.createTexture()`. -/
structure Texture where
  id : Nat
deriving DecidableEq, Repr

/-- A buffer object returned by `gl.createBuffer()`. -/
structure Buffer where
  id : Nat
deriving DecidableEq, Repr

/-- An image or video element of the page, named by its DOM id. -/
structure Media where
  id : String
deriving DecidableEq, Repr

/-- The arguments captured by the callback `() => { render(t1, t2, videoTexture, video) }`. -/
structure RenderArgs where
  t1 : Texture
  t2 : Texture
  videoTexture : Texture
  video : Media
deriving DecidableEq, Repr

/-- A 4x4 matrix built with the `mat4` library, kept as the expression that builds it. -/
inductive Mat4
  | create
  | perspective (fieldOfViewDegrees : ℚ) (clientWidth clientHeight : Nat) (zNear zFar : ℚ)
  | translate (a : Mat4) (x y z : ℚ)
deriving DecidableEq

/-- A value read from `programInfo.uniformLocations` and handed to a `gl.uniform*` call:
`none` is `undefined` (the property is absent), `some none` is `null` (the context found no such
uniform), `some (some n)` is a location. -/
abbrev UniformArg := Option (Option Nat)

/-- A value read from `programInfo.attribLocations`: `none` is `undefined`, `some i` the index
returned by `gl.getAttribLocation` (`-1` when the context found no such attribute). -/
abbrev AttribArg := Option Int

/-- One externally visible call of the program: a graphics call, a console call, or
`requestAnimationFrame`.  Arguments that are the same constant at every call site of the source
are part of the constructor and not repeated: `bindBuffer` and `bufferData` always target
`gl.ARRAY_BUFFER`, `bufferData` always uses `gl.STATIC_DRAW`, `bindTexture` and `texImage2D`
always target `gl.TEXTURE_2D` with level 0 and RGBA / UNSIGNED_BYTE, `vertexAttribPointer` always
reads `gl.FLOAT`. -/
inductive Cmd
  | consoleLog (msg : String)
  | consoleErrorShader (type : ShaderType) (source : String)
  | consoleError (msg : String)
  | createShader (type : ShaderType)
  | shaderSource (shader : Shader) (source : String)
  | compileShader (shader : Shader)
  | deleteShader (shader : Shader)
  | createProgram
  | attachShader (shader : Option Shader)
  | linkProgram
  | createBuffer
  | bindBuffer (buffer : Buffer)
  | bufferData (data : List ℚ)
  | createTexture
  | pixelStoreiFlipY (flip : Bool)
  | bindTexture (texture : Texture)
  | texImage2DPixel (width height border : Nat) (pixel : List Nat)
  | texImage2D (source : Media)
  | texParameteriWrapSClampToEdge
  | texParameteriWrapTClampToEdge
  | texParameteriMinFilterLinear
  | viewport (x y width height : Nat)
  | clearColor (r g b a : ℚ)
  | clearDepth (depth : ℚ)
  | enableDepthTest
  | depthFuncLequal
  | clearColorAndDepth
  | vertexAttribPointer (index : AttribArg) (size : Nat) (normalize : Bool) (stride offset : Nat)
  | enableVertexAttribArray (index : AttribArg)
  | useProgram (program : Option Program)
  | uniformMatrix4fv (location : UniformArg) (transpose : Bool) (value : Mat4)
  | activeTexture (unit : Nat)
  | uniform1i (location : UniformArg) (value : Int)
  | drawArraysTriangles (offset vertexCount : Nat)
  | requestAnimationFrame (callback : RenderArgs)
deriving DecidableEq

/-- What the graphics context and its canvas answer when asked.  The program treats the context
as an external capability; every result it reads from it is a field here. -/
structure GLContext where
  /-- The answer of `gl.getShaderParameter(shader, gl.COMPILE_STATUS)` for a shader of the given
  type and source. -/
  compileStatus : ShaderType → String → Bool
  /-- Whether `gl.attachShader(program, null)` returns normally.  A context whose binding
  declares the shader argument non-nullable throws a `TypeError` instead. -/
  attachShaderAcceptsNull : Bool
  /-- The answer of `gl.getProgramParameter(program, gl.LINK_STATUS)` after linking a program
  with the two given attachments. -/
  linkStatus : Option Shader → Option Shader → Bool
  /-- The answer of `gl.getAttribLocation(program, name)`. -/
  getAttribLocation : Option Program → String → Int
  /-- The answer of `gl.getUniformLocation(program, name)`; `none` is `null`. -/
  getUniformLocation : Option Program → String → Option Nat
  /-- The canvas sizes `gl.canvas.width`, `height`, `clientWidth`, `clientHeight`. -/
  canvasWidth : Nat
  canvasHeight : Nat
  canvasClientWidth : Nat
  canvasClientHeight : Nat

/-- A JavaScript exception. -/
inductive JsError
  | TypeError
deriving DecidableEq, Repr

/-! ## Shader program builder (`loadShader`, `initShaderProgram`, lines 33-65) -/

/-- Function `loadShader(gl, type, source)`: the calls it makes and the value it returns
(`none` is `null`). -/
def loadShader (gl : GLContext) (type : ShaderType) (source : String) :
    List Cmd × Option Shader :=
  let shader : Shader := ⟨type, source⟩
  let cmds := [Cmd.createShader type, Cmd.shaderSource shader source, Cmd.compileShader shader]
  if !gl.compileStatus type source then
    (cmds ++ [Cmd.consoleErrorShader type source, Cmd.deleteShader shader], none)
  else
    (cmds, some shader)

/-- The call `gl.attachShader(shaderProgram, shader)`: it throws when handed `null` by a
context that does not accept it. -/
def attachShader (gl : GLContext) (shader : Option Shader) : Except JsError Unit :=
  match shader with
  | some _ => Except.ok ()
  | none => if gl.attachShaderAcceptsNull then Except.ok () else Except.error JsError.TypeError

/-- Function `initShaderProgram(gl, vs, fs)`: the calls it makes, and either the value it
returns (`none` is `null`) or the exception that ends it. -/
def initShaderProgram (gl : GLContext) (vs fs : String) :
    List Cmd × Except JsError (Option Program) :=
  let (cmdsV, vertexShader) := loadShader gl ShaderType.VERTEX_SHADER vs
  let (cmdsF, fragmentShader) := loadShader gl ShaderType.FRAGMENT_SHADER fs
  let shaderProgram : Program := ⟨vertexShader, fragmentShader⟩
  let cmds := cmdsV ++ cmdsF ++ [Cmd.createProgram, Cmd.attachShader vertexShader]
  match attachShader gl vertexShader with
  | Except.error e => (cmds, Except.error e)
  | Except.ok () =>
    let cmds := cmds ++ [Cmd.attachShader fragmentShader]
    match attachShader gl fragmentShader with
    | Except.error e => (cmds, Except.error e)
    | Except.ok () =>
      let cmds := cmds ++ [Cmd.linkProgram]
      if !gl.linkStatus vertexShader fragmentShader then
        (cmds ++ [Cmd.consoleError "Failed to load shader program"], Except.ok none)
      else
        (cmds, Except.ok (some shaderProgram))

/-! ## Geometry buffers (`initPositionBuffer`, `initTextureBuffer`, `initBuffers`) -/

/-- The literal `positions` of `initPositionBuffer`. -/
def positions : List ℚ :=
  [-1, -1,
   1, -1,
   -1, 1,
   -1, 1,
   1, -1,
   1, 1]

/-- The literal `textureCoordinates` of `initTextureBuffer`. -/
def textureCoordinates : List ℚ :=
  [0, 0,
   1, 0,
   0, 1,
   0, 1,
   1, 0,
   1, 1]

/-- Function `initPositionBuffer(gl)`; `positionBuffer` is the handle `gl.createBuffer()`
returns. -/
def initPositionBuffer (positionBuffer : Buffer) : List Cmd × Buffer :=
  ([Cmd.createBuffer, Cmd.bindBuffer positionBuffer, Cmd.bufferData positions], positionBuffer)

/-- Function `initTextureBuffer(gl)`; `textureCoordBuffer` is the handle `gl.createBuffer()`
returns. -/
def initTextureBuffer (textureCoordBuffer : Buffer) : List Cmd × Buffer :=
  ([Cmd.createBuffer, Cmd.bindBuffer textureCoordBuffer, Cmd.bufferData textureCoordinates],
    textureCoordBuffer)

/-- The record returned by `initBuffers`. -/
structure Buffers where
  position : Buffer
  textureCoord : Buffer
deriving DecidableEq, Repr

/-- Function `initBuffers(gl)`; the two arguments are the handles the two `gl.createBuffer()`
calls return. -/
def initBuffers (b1 b2 : Buffer) : List Cmd × Buffers :=
  let (cmdsP, positionBuffer) := initPositionBuffer b1
  let (cmdsT, textureCoordBuffer) := initTextureBuffer b2
  (cmdsP ++ cmdsT, ⟨positionBuffer, textureCoordBuffer⟩)

/-- The arrays handed to `gl.bufferData` in a command trace, in order. -/
def uploadedArrays : List Cmd → List (List ℚ)
  | [] => []
  | Cmd.bufferData data :: rest => data :: uploadedArrays rest
  | _ :: rest => uploadedArrays rest

/-- The vertices a vertex attribute reads from a buffer with `numComponents = 2`, `stride = 0`
and `offset = 0` (`setPositionAttributes`, `setTextureAttribute`): consecutive pairs. -/
def vertices : List ℚ → List Vec2
  | x :: y :: rest => (x, y) :: vertices rest
  | _ => []

/-- The triangles `gl.drawArrays(gl.TRIANGLES, 0, n)` assembles from a vertex list: consecutive
triples. -/
def triangles : List Vec2 → List (Vec2 × Vec2 × Vec2)
  | a :: b :: c :: rest => (a, b, c) :: triangles rest
  | _ => []

/-- Coordinate-wise minimum of a list of points (`none` for the empty list). -/
def coordMin : List Vec2 → Option Vec2
  | [] => none
  | v :: rest =>
    match coordMin rest with
    | none => some v
    | some m => some (min v.1 m.1, min v.2 m.2)

/-- Coordinate-wise maximum of a list of points (`none` for the empty list). -/
def coordMax : List Vec2 → Option Vec2
  | [] => none
  | v :: rest =>
    match coordMax rest with
    | none => some v
    | some m => some (max v.1 m.1, max v.2 m.2)

/-- Twice the signed area of the triangle `a b p`: positive when `p` lies to the left of the
directed edge from `a` to `b`. -/
def edgeFunction (a b p : Vec2) : ℚ :=
  (b.1 - a.1) * (p.2 - a.2) - (b.2 - a.2) * (p.1 - a.1)

/-- The point `p` lies in the closed triangle `t`: it is on the same side of all three edges. -/
def inTriangle (t : Vec2 × Vec2 × Vec2) (p : Vec2) : Prop :=
  (0 ≤ edgeFunction t.1 t.2.1 p ∧ 0 ≤ edgeFunction t.2.1 t.2.2 p ∧ 0 ≤ edgeFunction t.2.2 t.1 p) ∨
  (edgeFunction t.1 t.2.1 p ≤ 0 ∧ edgeFunction t.2.1 t.2.2 p ≤ 0 ∧ edgeFunction t.2.2 t.1 p ≤ 0)

instance (t : Vec2 × Vec2 × Vec2) (p : Vec2) : Decidable (inTriangle t p) := by
  unfold inTriangle
  infer_instance

/-! ## Texture manager (`createTexture`, `updateTexture`) -/

/-- Function `createTexture(gl)`; `texture` is the handle `gl.createTexture()` returns. -/
def createTexture (texture : Texture) : List Cmd × Texture :=
  ([Cmd.createTexture, Cmd.pixelStoreiFlipY true, Cmd.bindTexture texture,
    Cmd.texImage2DPixel 1 1 0 [0, 0, 255, 255],
    Cmd.texParameteriWrapSClampToEdge, Cmd.texParameteriWrapTClampToEdge,
    Cmd.texParameteriMinFilterLinear], texture)

/-- Function `updateTexture(gl, texture, video)`. -/
def updateTexture (texture : Texture) (video : Media) : List Cmd :=
  [Cmd.bindTexture texture, Cmd.texImage2D video]

/-! ## The program-info record (lines 323-336) and the draw call (`drawScene`) -/

/-- The record `programInfo`.  The two nested objects are association lists from property names
to values, as the object literals of the source list them. -/
structure ProgramInfo where
  program : Option Program
  attribLocations : List (String × Int)
  uniformLocations : List (String × Option Nat)

/-- The object literal assigned to `programInfo` at start-up, for the program `shaderProgram`
returned by `initShaderProgram`. -/
def programInfo (gl : GLContext) (shaderProgram : Option Program) : ProgramInfo where
  program := shaderProgram
  attribLocations :=
    [("vertexPosition", gl.getAttribLocation shaderProgram "aVertexPosition"),
     ("textureCoord", gl.getAttribLocation shaderProgram "aTextureCoord")]
  uniformLocations :=
    [("projectionMatrix", gl.getUniformLocation shaderProgram "uProjectionMatrix"),
     ("modelMatrix", gl.getUniformLocation shaderProgram "uModelViewMatrix"),
     ("uSampler1", gl.getUniformLocation shaderProgram "uSampler1"),
     ("uSampler2", gl.getUniformLocation shaderProgram "uSampler2"),
     ("uSampler3", gl.getUniformLocation shaderProgram "uSampler3")]

/-- A property read `object.key`: the value stored under `key`, or `none` (JavaScript
`undefined`) when the object has no such property. -/
def getProp {α : Type} (object : List (String × α)) (key : String) : Option α :=
  object.lookup key

/-- Function `setPositionAttributes(gl, buffers, programInfo)`. -/
def setPositionAttributes (buffers : Buffers) (programInfo : ProgramInfo) : List Cmd :=
  [Cmd.bindBuffer buffers.position,
   Cmd.vertexAttribPointer (getProp programInfo.attribLocations "vertexPosition") 2 false 0 0,
   Cmd.enableVertexAttribArray (getProp programInfo.attribLocations "vertexPosition")]

/-- Function `setTextureAttribute(gl, buffers, programInfo)`. -/
def setTextureAttribute (buffers : Buffers) (programInfo : ProgramInfo) : List Cmd :=
  [Cmd.bindBuffer buffers.textureCoord,
   Cmd.vertexAttribPointer (getProp programInfo.attribLocations "textureCoord") 2 false 0 0,
   Cmd.enableVertexAttribArray (getProp programInfo.attribLocations "textureCoord")]

/-- Function `drawScene(gl, programInfo, buffers, texture1, texture2, videoTexture)`: the calls it
makes, in order. -/
def drawScene (gl : GLContext) (programInfo : ProgramInfo) (buffers : Buffers)
    (texture1 texture2 videoTexture : Texture) : List Cmd :=
  let projectionMatrix :=
    Mat4.perspective 45 gl.canvasClientWidth gl.canvasClientHeight (1 / 10) 100
  let modelViewMatrix := Mat4.translate Mat4.create 0 0 (-6)
  [Cmd.clearColor 0 0 0 1, Cmd.clearDepth 1, Cmd.enableDepthTest, Cmd.depthFuncLequal,
   Cmd.clearColorAndDepth]
  ++ setPositionAttributes buffers programInfo
  ++ setTextureAttribute buffers programInfo
  ++ [Cmd.useProgram programInfo.program,
      Cmd.uniformMatrix4fv (getProp programInfo.uniformLocations "projectionMatrix") false
        projectionMatrix,
      Cmd.uniformMatrix4fv (getProp programInfo.uniformLocations "modelViewMatrix") false
        modelViewMatrix,
      Cmd.activeTexture 0,
      Cmd.bindTexture texture1,
      Cmd.uniform1i (getProp programInfo.uniformLocations "uSampler1") 0,
      Cmd.activeTexture 1,
      Cmd.bindTexture texture2,
      Cmd.uniform1i (getProp programInfo.uniformLocations "uSampler2") 1,
      Cmd.activeTexture 2,
      Cmd.bindTexture videoTexture,
      Cmd.uniform1i (getProp programInfo.uniformLocations "uSampler3") 2,
      Cmd.drawArraysTriangles 0 6]

/-- The texture-unit state of the context: the active unit selected by `gl.activeTexture` and
the `TEXTURE_2D` binding of every unit. -/
structure TextureUnits where
  active : Nat
  bound : Nat → Option Texture

/-- The texture units of a new context: unit 0 is active and nothing is bound. -/
def TextureUnits.fresh : TextureUnits := ⟨0, fun _ => none⟩

/-- The effect of one call on the texture units: `activeTexture` selects a unit, `bindTexture`
binds a texture to the active unit, every other call leaves them alone. -/
def TextureUnits.exec (s : TextureUnits) : Cmd → TextureUnits
  | Cmd.activeTexture unit => { s with active := unit }
  | Cmd.bindTexture texture =>
    { s with bound := fun u => if u = s.active then some texture else s.bound u }
  | _ => s

/-- The effect of a sequence of calls on the texture units. -/
def TextureUnits.run (s : TextureUnits) (cmds : List Cmd) : TextureUnits :=
  cmds.foldl TextureUnits.exec s

/-- Is the call a draw call? -/
def Cmd.isDraw : Cmd → Bool
  | Cmd.drawArraysTriangles _ _ => true
  | _ => false

/-- Does the call create a texture? -/
def Cmd.isCreateTexture : Cmd → Bool
  | Cmd.createTexture => true
  | _ => false

/-- Is the call `requestAnimationFrame`? -/
def Cmd.isRequestAnimationFrame : Cmd → Bool
  | Cmd.requestAnimationFrame _ => true
  | _ => false

/-- Is the call `gl.uniform1i`? -/
def Cmd.isUniform1i : Cmd → Bool
  | Cmd.uniform1i _ _ => true
  | _ => false

/-- The calls of a trace that come before its first draw call. -/
def beforeDraw (cmds : List Cmd) : List Cmd :=
  cmds.takeWhile fun c => !c.isDraw

/-! ## One tick of the render loop (`render`, lines 344-352) -/

/-- Function `render(t1, t2, videoTexture, video)`, with the module-level `gl`, `programInfo`
and `buffers` as parameters; `readyState` is the value `video.readyState` has when it is read. -/
def render (gl : GLContext) (programInfo : ProgramInfo) (buffers : Buffers)
    (t1 t2 videoTexture : Texture) (video : Media) (readyState : Nat) : List Cmd :=
  (if readyState ≥ 3 then updateTexture videoTexture video else [])
  ++ drawScene gl programInfo buffers t1 t2 videoTexture
  ++ [Cmd.requestAnimationFrame ⟨t1, t2, videoTexture, video⟩]

/-! ## Promises -/

/-- A JavaScript promise, as far as the program observes it: whether it has been resolved, and
how many times it went from pending to fulfilled (each such transition runs the callbacks
attached with `then` once). -/
structure Promise where
  resolved : Bool
  fulfilments : Nat
deriving DecidableEq, Repr

/-- A promise just created by `new Promise(...)`. -/
def Promise.pending : Promise := ⟨false, 0⟩

/-- A call of the `resolve` function the promise hands to its executor: it fulfils a pending
promise, and does nothing to a promise that was resolved before. -/
def Promise.resolve (p : Promise) : Promise :=
  if p.resolved then p else ⟨true, p.fulfilments + 1⟩

/-! ## Video readiness gate (`setupVideo`, lines 283-309) -/

/-- The two events `setupVideo` listens to. -/
inductive VideoEvent
  | playing
  | timeupdate
deriving DecidableEq, Repr

/-- The state of the closure `setupVideo` creates: its two local flags, the promise it returns,
and a count of the calls `resolve(video)` made so far. -/
structure VideoGate where
  playing : Bool
  timeupdate : Bool
  resolveCalls : Nat
  promise : Promise
deriving DecidableEq, Repr

/-- The state right after `setupVideo(video)` has run: both flags `false`, the promise pending.
(The assignments `video.playsInline = true` and `video.loop = true` do not touch it.) -/
def setupVideo : VideoGate := ⟨false, false, 0, Promise.pending⟩

/-- The call `resolve(video)` inside a listener. -/
def VideoGate.callResolve (s : VideoGate) : VideoGate :=
  { s with resolveCalls := s.resolveCalls + 1, promise := s.promise.resolve }

/-- The listener registered for `playing`. -/
def VideoGate.onPlaying (s : VideoGate) : VideoGate :=
  let s := { s with playing := true }
  if s.timeupdate then s.callResolve else s

/-- The listener registered for `timeupdate`. -/
def VideoGate.onTimeupdate (s : VideoGate) : VideoGate :=
  let s := { s with timeupdate := true }
  if s.playing then s.callResolve else s

/-- Delivery of one event to the listener registered for it. -/
def VideoGate.step (s : VideoGate) : VideoEvent → VideoGate
  | VideoEvent.playing => s.onPlaying
  | VideoEvent.timeupdate => s.onTimeupdate

/-- Delivery of a sequence of events, starting from the state `setupVideo` leaves. -/
def VideoGate.run (events : List VideoEvent) : VideoGate :=
  events.foldl VideoGate.step setupVideo

/-! ## Start-up sequence (`loadImage`, lines 311-318; `Promise.all(...).then`, lines 358-371) -/

/-- The events the start-up sequence reacts to: `onload` of each image, and the two video
events. -/
inductive Event
  | scene1Load
  | scene2Load
  | playing
  | timeupdate
deriving DecidableEq, Repr

/-- The module-level constants of the script. -/
structure Globals where
  gl : GLContext
  programInfo : ProgramInfo
  buffers : Buffers
  t1 : Texture
  t2 : Texture
  videoTexture : Texture
  scene1 : Media
  scene2 : Media
  video : Media

/-- The state of the start-up sequence once the top-level script has run: the promises of
`loadImage(scene1)` and `loadImage(scene2)`, the promise of `Promise.all` with its count of
elements still pending, the video gate (`none` until `setupVideo(video)` has registered its
listeners), the number of calls of `render` made by the `then` callback of `setupVideo`, and the
calls made so far. -/
structure Startup where
  scene1Promise : Promise
  scene2Promise : Promise
  remaining : Nat
  all : Promise
  gate : Option VideoGate
  renderCalls : Nat
  trace : List Cmd

/-- The state when the top-level script has finished: both `onload` handlers are installed,
nothing has fired. -/
def Startup.init : Startup where
  scene1Promise := Promise.pending
  scene2Promise := Promise.pending
  remaining := 2
  all := Promise.pending
  gate := none
  renderCalls := 0
  trace := []

/-- The callback given to `Promise.all([...]).then`: set the viewport, upload both images, draw
once, and call `setupVideo(video)`, which registers the two video listeners. -/
def Startup.afterImages (G : Globals) (s : Startup) : Startup :=
  { s with
    trace := s.trace
      ++ [Cmd.viewport 0 0 G.gl.canvasWidth G.gl.canvasHeight]
      ++ updateTexture G.t1 G.scene1
      ++ updateTexture G.t2 G.scene2
      ++ drawScene G.gl G.programInfo G.buffers G.t1 G.t2 G.videoTexture
    gate := some setupVideo }

/-- The reaction of `Promise.all` to the fulfilment of one of its two elements: count it, and
when none remains resolve the combined promise, whose fulfilment runs `afterImages`. -/
def Startup.elementFulfilled (G : Globals) (s : Startup) : Startup :=
  let s := { s with remaining := s.remaining - 1 }
  if s.remaining = 0 then
    if s.all.resolved then s
    else Startup.afterImages G { s with all := s.all.resolve }
  else s

/-- The callback given to `setupVideo(video).then`: the first call of `render`. -/
def Startup.afterVideo (G : Globals) (readyState : Nat) (s : Startup) : Startup :=
  { s with
    renderCalls := s.renderCalls + 1
    trace := s.trace
      ++ render G.gl G.programInfo G.buffers G.t1 G.t2 G.videoTexture G.video readyState }

/-- Delivery of a video event: nothing listens before `setupVideo` has run; afterwards the
listener runs, and if its call of `resolve` fulfilled the promise, `afterVideo` runs. -/
def Startup.videoEvent (G : Globals) (readyState : Nat) (s : Startup) (e : VideoEvent) :
    Startup :=
  match s.gate with
  | none => s
  | some g =>
    let g' := g.step e
    let s := { s with gate := some g' }
    if g.promise.resolved = false ∧ g'.promise.resolved = true then
      Startup.afterVideo G readyState s
    else s

/-- One step of the start-up sequence: an event together with the promise reactions it sets
off.  `readyState` is the value of `video.readyState` read by `render`, should it run. -/
def Startup.step (G : Globals) (readyState : Nat) (s : Startup) : Event → Startup
  | Event.scene1Load =>
    let s := { s with trace := s.trace ++ [Cmd.consoleLog "onload"] }
    if s.scene1Promise.resolved then s
    else Startup.elementFulfilled G { s with scene1Promise := s.scene1Promise.resolve }
  | Event.scene2Load =>
    let s := { s with trace := s.trace ++ [Cmd.consoleLog "onload"] }
    if s.scene2Promise.resolved then s
    else Startup.elementFulfilled G { s with scene2Promise := s.scene2Promise.resolve }
  | Event.playing => Startup.videoEvent G readyState s VideoEvent.playing
  | Event.timeupdate => Startup.videoEvent G readyState s VideoEvent.timeupdate

/-- The state after a sequence of events, from a given state. -/
def Startup.runFrom (G : Globals) (readyState : Nat) (s : Startup) (events : List Event) :
    Startup :=
  events.foldl (Startup.step G readyState) s

/-- The state after a sequence of events, from the initial state. -/
def Startup.run (G : Globals) (readyState : Nat) (events : List Event) : Startup :=
  Startup.runFrom G readyState Startup.init events

/-- Is the call a graphics call (anything but console output and `requestAnimationFrame`)? -/
def Cmd.isGraphics : Cmd → Bool
  | Cmd.consoleLog _ => false
  | Cmd.consoleErrorShader _ _ => false
  | Cmd.consoleError _ => false
  | Cmd.requestAnimationFrame _ => false
  | _ => true

/-- The texture uploads a trace performs from a given texture-unit state: each `texImage2D` of
an image or video writes into the texture bound to the active unit at that moment. -/
def textureUploads (s : TextureUnits) : List Cmd → List (Option Texture × Media)
  | [] => []
  | Cmd.texImage2D source :: rest => (s.bound s.active, source) :: textureUploads s rest
  | c :: rest => textureUploads (s.exec c) rest

/-- A context in which the fragment shader fails to compile, `attachShader` accepts `null`, and
`LINK_STATUS` is nevertheless reported `true`. -/
def contextLinkReportedTrue : GLContext where
  compileStatus := fun type _ => type != ShaderType.FRAGMENT_SHADER
  attachShaderAcceptsNull := true
  linkStatus := fun _ _ => true
  getAttribLocation := fun _ _ => 0
  getUniformLocation := fun _ _ => some 0
  canvasWidth := 2
  canvasHeight := 2
  canvasClientWidth := 2
  canvasClientHeight := 2

/-- A context in which the fragment shader fails to compile, `attachShader` accepts `null`, and
linking then fails. -/
def contextLinkFails : GLContext where
  compileStatus := fun type _ => type != ShaderType.FRAGMENT_SHADER
  attachShaderAcceptsNull := true
  linkStatus := fun _ _ => false
  getAttribLocation := fun _ _ => 0
  getUniformLocation := fun _ _ => some 0
  canvasWidth := 2
  canvasHeight := 2
  canvasClientWidth := 2
  canvasClientHeight := 2

/-- A context in which the fragment shader fails to compile and `attachShader` does not accept
`null`. -/
def contextAttachThrows : GLContext where
  compileStatus := fun type _ => type != ShaderType.FRAGMENT_SHADER
  attachShaderAcceptsNull := false
  linkStatus := fun _ _ => false
  getAttribLocation := fun _ _ => 0
  getUniformLocation := fun _ _ => some 0
  canvasWidth := 2
  canvasHeight := 2
  canvasClientWidth := 2
  canvasClientHeight := 2

/-- A context in which everything compiles and links, and every uniform is found at location
`7`. -/
def contextAllFound : GLContext where
  compileStatus := fun _ _ => true
  attachShaderAcceptsNull := false
  linkStatus := fun _ _ => true
  getAttribLocation := fun _ _ => 0
  getUniformLocation := fun _ _ => some 7
  canvasWidth := 2
  canvasHeight := 2
  canvasClientWidth := 2
  canvasClientHeight := 2

/-- What holds of the state `s` reached from `Startup.init` by the events `es`: each image
promise is resolved exactly when its `onload` has fired; the counter of `Promise.all` counts the
images still pending; while the video listeners are not registered one image is still missing,
nothing has been rendered and only `console.log` has been called; once they are registered
(which happened at the event `e` that completed the images, after the events `pre`), each flag of
the video gate is set exactly when its event has occurred among the events `post` after `e`, and
`render` has been called exactly when both flags are set. -/
structure Startup.Inv (es : List Event) (s : Startup) : Prop where
  scene1 : s.scene1Promise.resolved = true ↔ Event.scene1Load ∈ es
  scene2 : s.scene2Promise.resolved = true ↔ Event.scene2Load ∈ es
  remaining : s.remaining =
    (if s.scene1Promise.resolved then 0 else 1) + (if s.scene2Promise.resolved then 0 else 1)
  waiting : s.gate = none →
    ¬ (Event.scene1Load ∈ es ∧ Event.scene2Load ∈ es) ∧ s.all.resolved = false ∧
    s.renderCalls = 0 ∧ ∀ c ∈ s.trace, c = Cmd.consoleLog "onload"
  started : ∀ g, s.gate = some g →
    (Event.scene1Load ∈ es ∧ Event.scene2Load ∈ es) ∧
    (g.promise.resolved = true ↔ (g.playing = true ∧ g.timeupdate = true)) ∧
    (0 < s.renderCalls ↔ (g.playing = true ∧ g.timeupdate = true)) ∧
    ∃ pre e post, es = pre ++ e :: post ∧
      ¬ (Event.scene1Load ∈ pre ∧ Event.scene2Load ∈ pre) ∧
      (Event.scene1Load ∈ pre ++ [e] ∧ Event.scene2Load ∈ pre ++ [e]) ∧
      (g.playing = true ↔ Event.playing ∈ post) ∧
      (g.timeupdate = true ↔ Event.timeupdate ∈ post)

/-- Module-level constants of a page whose program compiled and linked in the context
`contextAllFound`: textures 0, 1, 2 and the elements `scene1`, `scene2`, `texture`. -/
def exampleGlobals : Globals where
  gl := contextAllFound
  programInfo := programInfo contextAllFound
    (some ⟨some ⟨ShaderType.VERTEX_SHADER, "vs"⟩, some ⟨ShaderType.FRAGMENT_SHADER, "fs"⟩⟩)
  buffers := ⟨⟨0⟩, ⟨1⟩⟩
  t1 := ⟨0⟩
  t2 := ⟨1⟩
  videoTexture := ⟨2⟩
  scene1 := ⟨"scene1"⟩
  scene2 := ⟨"scene2"⟩
  video := ⟨"texture"⟩

/-! ## Theorems -/

/-- C1. Colour key of the fragment shader: with `A`, `B` and the video sample taken from
`uSampler1`, `uSampler2`, `uSampler3` at the same texture coordinate, the output colour is `A`
(all four components) when the red, green and blue channels of the video sample are all zero,
whatever its alpha, and it is `B` (all four components) in every other case. -/
theorem fragmentShader_colour_key (uSampler1 uSampler2 uSampler3 : Sampler2D) (uv : Vec2) :
    (((uSampler3 uv).r = 0 ∧ (uSampler3 uv).g = 0 ∧ (uSampler3 uv).b = 0) →
      fragmentShader uSampler1 uSampler2 uSampler3 uv = uSampler1 uv) ∧
    (¬ ((uSampler3 uv).r = 0 ∧ (uSampler3 uv).g = 0 ∧ (uSampler3 uv).b = 0) →
      fragmentShader uSampler1 uSampler2 uSampler3 uv = uSampler2 uv) := by
  constructor
  · intro h
    simp only [fragmentShader, texture2D, if_pos h]
  · intro h
    simp only [fragmentShader, texture2D, if_neg h]

/-- The colour key at concrete samples: a video sample `(0, 0, 0, 1/2)` selects the sample of
`uSampler1`, and the video sample `(10/255, 0, 0, 1)`, the byte colour `(10, 0, 0, 255)`, selects
the sample of `uSampler2`. -/
theorem fragmentShader_colour_key_witness :
    fragmentShader (fun _ => ⟨1, 0, 0, 1⟩) (fun _ => ⟨0, 1, 0, 1⟩)
        (fun _ => ⟨0, 0, 0, 1 / 2⟩) (0, 0) = ⟨1, 0, 0, 1⟩ ∧
    fragmentShader (fun _ => ⟨1, 0, 0, 1⟩) (fun _ => ⟨0, 1, 0, 1⟩)
        (fun _ => ⟨10 / 255, 0, 0, 1⟩) (0, 0) = ⟨0, 1, 0, 1⟩ :=
  ⟨(fragmentShader_colour_key (fun _ => ⟨1, 0, 0, 1⟩) (fun _ => ⟨0, 1, 0, 1⟩)
      (fun _ => ⟨0, 0, 0, 1 / 2⟩) (0, 0)).1 ⟨rfl, rfl, rfl⟩,
   (fragmentShader_colour_key (fun _ => ⟨1, 0, 0, 1⟩) (fun _ => ⟨0, 1, 0, 1⟩)
      (fun _ => ⟨10 / 255, 0, 0, 1⟩) (0, 0)).2 (by norm_num)⟩

/-! ### Shader program builder -/

/-- A stage that fails to compile makes `loadShader` return `null` and emit the diagnostic with
the stage kind and the source text. -/
theorem loadShader_failure (gl : GLContext) (type : ShaderType) (source : String)
    (h : gl.compileStatus type source = false) :
    (loadShader gl type source).2 = none ∧
    Cmd.consoleErrorShader type source ∈ (loadShader gl type source).1 := by
  simp [loadShader, h]

/-- The calls of both `loadShader` runs are part of the trace of `initShaderProgram`. -/
theorem loadShader_trace_in_initShaderProgram (gl : GLContext) (vs fs : String) (c : Cmd)
    (h : c ∈ (loadShader gl ShaderType.VERTEX_SHADER vs).1 ∨
      c ∈ (loadShader gl ShaderType.FRAGMENT_SHADER fs).1) :
    c ∈ (initShaderProgram gl vs fs).1 := by
  unfold initShaderProgram
  simp only []
  cases hv : attachShader gl (loadShader gl ShaderType.VERTEX_SHADER vs).2 with
  | error e => simp only [List.mem_append]; tauto
  | ok u =>
    cases hf : attachShader gl (loadShader gl ShaderType.FRAGMENT_SHADER fs).2 with
    | error e => simp only [List.mem_append]; tauto
    | ok u2 =>
      simp only []
      split <;> simp only [List.mem_append] <;> tauto

/-- C4, counterexample.  In the context `contextLinkReportedTrue` the fragment stage fails to
compile, and `initShaderProgram` nevertheless returns a program object, not `null`; in the
context `contextAttachThrows` the fragment stage fails to compile and `initShaderProgram` ends
with an exception. -/
theorem initShaderProgram_compile_failure_counterexample :
    contextLinkReportedTrue.compileStatus ShaderType.FRAGMENT_SHADER "f" = false ∧
    (initShaderProgram contextLinkReportedTrue "v" "f").2 =
      Except.ok (some ⟨some ⟨ShaderType.VERTEX_SHADER, "v"⟩, none⟩) ∧
    contextAttachThrows.compileStatus ShaderType.FRAGMENT_SHADER "f" = false ∧
    (initShaderProgram contextAttachThrows "v" "f").2 = Except.error JsError.TypeError :=
  ⟨rfl, rfl, rfl, rfl⟩

/-- C4, amended.  When compilation of the vertex stage or of the fragment stage fails,
`loadShader` returns `null` for each failing stage and the diagnostic carrying that stage kind
and its source text is part of the calls `initShaderProgram` makes; and `initShaderProgram`
returns `null` exactly when the context accepts the `null` shader in `attachShader` and then
reports `LINK_STATUS` false. -/
theorem initShaderProgram_compile_failure (gl : GLContext) (vs fs : String)
    (h : gl.compileStatus ShaderType.VERTEX_SHADER vs = false ∨
      gl.compileStatus ShaderType.FRAGMENT_SHADER fs = false) :
    (gl.compileStatus ShaderType.VERTEX_SHADER vs = false →
      (loadShader gl ShaderType.VERTEX_SHADER vs).2 = none ∧
      Cmd.consoleErrorShader ShaderType.VERTEX_SHADER vs ∈ (initShaderProgram gl vs fs).1) ∧
    (gl.compileStatus ShaderType.FRAGMENT_SHADER fs = false →
      (loadShader gl ShaderType.FRAGMENT_SHADER fs).2 = none ∧
      Cmd.consoleErrorShader ShaderType.FRAGMENT_SHADER fs ∈ (initShaderProgram gl vs fs).1) ∧
    ((initShaderProgram gl vs fs).2 = Except.ok none ↔
      (gl.attachShaderAcceptsNull = true ∧
        gl.linkStatus (loadShader gl ShaderType.VERTEX_SHADER vs).2
          (loadShader gl ShaderType.FRAGMENT_SHADER fs).2 = false)) := by
  refine ⟨fun hv => ⟨(loadShader_failure gl _ _ hv).1, ?_⟩,
    fun hf => ⟨(loadShader_failure gl _ _ hf).1, ?_⟩, ?_⟩
  · exact loadShader_trace_in_initShaderProgram gl vs fs _
      (Or.inl (loadShader_failure gl _ _ hv).2)
  · exact loadShader_trace_in_initShaderProgram gl vs fs _
      (Or.inr (loadShader_failure gl _ _ hf).2)
  · cases hA : gl.attachShaderAcceptsNull <;>
      cases hV : gl.compileStatus ShaderType.VERTEX_SHADER vs <;>
      cases hF : gl.compileStatus ShaderType.FRAGMENT_SHADER fs <;>
      simp [hV, hF] at h <;>
      cases hL1 : gl.linkStatus none none <;>
      cases hL2 : gl.linkStatus none (some ⟨ShaderType.FRAGMENT_SHADER, fs⟩) <;>
      cases hL3 : gl.linkStatus (some ⟨ShaderType.VERTEX_SHADER, vs⟩) none <;>
      simp [initShaderProgram, loadShader, attachShader, hA, hV, hF, hL1, hL2, hL3]

/-- The amended C4 at a concrete context: the fragment stage fails to compile, the context
accepts the `null` attachment and reports the link as failed, and `initShaderProgram` returns
`null` after the fragment diagnostic. -/
theorem initShaderProgram_compile_failure_witness :
    (loadShader contextLinkFails ShaderType.FRAGMENT_SHADER "f").2 = none ∧
    Cmd.consoleErrorShader ShaderType.FRAGMENT_SHADER "f" ∈
      (initShaderProgram contextLinkFails "v" "f").1 ∧
    (initShaderProgram contextLinkFails "v" "f").2 = Except.ok none :=
  have h := initShaderProgram_compile_failure contextLinkFails "v" "f" (Or.inr rfl)
  ⟨(h.2.1 rfl).1, (h.2.1 rfl).2, h.2.2.2 ⟨rfl, rfl⟩⟩

/-! ### Geometry -/

/-- C8.  Geometry data.  The one array `initPositionBuffer` uploads is `positions`: 12 numbers,
6 two-component vertices, coordinate-wise minimum `(-1, -1)` and maximum `(1, 1)`, assembled by
the triangle-list draw into two triangles (vertices 0-2 and 3-5) whose union is the whole square
`[-1, 1] x [-1, 1]`.  The one array `initTextureBuffer` uploads is `textureCoordinates`:
6 two-component vertices with coordinate-wise minimum `(0, 0)` and maximum `(1, 1)`.  And the
texture coordinate of every vertex is `((x + 1) / 2, (y + 1) / 2)` of its position `(x, y)`. -/
theorem geometry_buffers (positionBuffer textureCoordBuffer : Buffer) :
    uploadedArrays (initPositionBuffer positionBuffer).1 = [positions] ∧
    positions.length = 12 ∧
    (vertices positions).length = 6 ∧
    coordMin (vertices positions) = some (-1, -1) ∧
    coordMax (vertices positions) = some (1, 1) ∧
    triangles (vertices positions) =
      [((-1, -1), (1, -1), (-1, 1)), ((-1, 1), (1, -1), (1, 1))] ∧
    (∀ p : Vec2, (-1 ≤ p.1 ∧ p.1 ≤ 1 ∧ -1 ≤ p.2 ∧ p.2 ≤ 1) ↔
      ∃ t ∈ triangles (vertices positions), inTriangle t p) ∧
    uploadedArrays (initTextureBuffer textureCoordBuffer).1 = [textureCoordinates] ∧
    (vertices textureCoordinates).length = 6 ∧
    coordMin (vertices textureCoordinates) = some (0, 0) ∧
    coordMax (vertices textureCoordinates) = some (1, 1) ∧
    vertices textureCoordinates =
      (vertices positions).map (fun v => ((v.1 + 1) / 2, (v.2 + 1) / 2)) := by
  refine ⟨rfl, rfl, rfl, ?_, ?_, rfl, ?_, rfl, rfl, ?_, ?_, ?_⟩
  · simp [coordMin, vertices, positions]
  · simp [coordMax, vertices, positions]
  · intro p
    simp only [triangles, vertices, positions, inTriangle, edgeFunction, List.mem_cons,
      List.mem_singleton, List.not_mem_nil, or_false, exists_eq_or_imp, exists_eq_left]
    constructor
    · rintro ⟨h1, h2, h3, h4⟩
      by_cases h : p.1 + p.2 ≤ 0
      · left; left; refine ⟨by linarith, by linarith, by linarith⟩
      · right; left; refine ⟨by linarith, by linarith, by linarith⟩
    · rintro (h | h)
      · rcases h with ⟨h1, h2, h3⟩ | ⟨h1, h2, h3⟩
        · refine ⟨by linarith, by linarith, by linarith, by linarith⟩
        · refine ⟨by linarith, by linarith, by linarith, by linarith⟩
      · rcases h with ⟨h1, h2, h3⟩ | ⟨h1, h2, h3⟩
        · refine ⟨by linarith, by linarith, by linarith, by linarith⟩
        · refine ⟨by linarith, by linarith, by linarith, by linarith⟩
  · simp [coordMin, vertices, textureCoordinates]
  · simp [coordMax, vertices, textureCoordinates]
  · simp [vertices, positions, textureCoordinates]

/-! ### The draw call -/

/-- C5.  Draw call of `drawScene`, from any texture-unit state `s`: at the moment of the draw
unit 0 holds `texture1`, unit 1 holds `texture2` and unit 2 holds `videoTexture`; no other unit
is touched, so that from a new context exactly the three units 0, 1, 2 are bound; the only
`uniform1i` calls set the locations read from `uSampler1`, `uSampler2`, `uSampler3` to 0, 1, 2,
and with the `programInfo` record of the script these are the locations the context resolved for
the shader variables of those names; and exactly one draw is issued, `drawArrays(TRIANGLES, 0,
6)`, as the last call. -/
theorem drawScene_binds_three_units_and_draws_once (gl : GLContext) (info : ProgramInfo)
    (buffers : Buffers) (texture1 texture2 videoTexture : Texture) (s : TextureUnits) :
    (s.run (beforeDraw (drawScene gl info buffers texture1 texture2 videoTexture))).bound 0
      = some texture1 ∧
    (s.run (beforeDraw (drawScene gl info buffers texture1 texture2 videoTexture))).bound 1
      = some texture2 ∧
    (s.run (beforeDraw (drawScene gl info buffers texture1 texture2 videoTexture))).bound 2
      = some videoTexture ∧
    (∀ u, u ≠ 0 → u ≠ 1 → u ≠ 2 →
      (s.run (beforeDraw (drawScene gl info buffers texture1 texture2 videoTexture))).bound u
        = s.bound u) ∧
    (∀ u, ((TextureUnits.fresh.run
        (beforeDraw (drawScene gl info buffers texture1 texture2 videoTexture))).bound u).isSome
      ↔ (u = 0 ∨ u = 1 ∨ u = 2)) ∧
    (drawScene gl info buffers texture1 texture2 videoTexture).filter Cmd.isUniform1i =
      [Cmd.uniform1i (getProp info.uniformLocations "uSampler1") 0,
       Cmd.uniform1i (getProp info.uniformLocations "uSampler2") 1,
       Cmd.uniform1i (getProp info.uniformLocations "uSampler3") 2] ∧
    (∀ shaderProgram : Option Program,
      (drawScene gl (programInfo gl shaderProgram) buffers texture1 texture2
          videoTexture).filter Cmd.isUniform1i =
        [Cmd.uniform1i (some (gl.getUniformLocation shaderProgram "uSampler1")) 0,
         Cmd.uniform1i (some (gl.getUniformLocation shaderProgram "uSampler2")) 1,
         Cmd.uniform1i (some (gl.getUniformLocation shaderProgram "uSampler3")) 2]) ∧
    (drawScene gl info buffers texture1 texture2 videoTexture).filter Cmd.isDraw =
      [Cmd.drawArraysTriangles 0 6] ∧
    (drawScene gl info buffers texture1 texture2 videoTexture).getLast? =
      some (Cmd.drawArraysTriangles 0 6) := by
  refine ⟨rfl, rfl, rfl, ?_, ?_, rfl, fun _ => rfl, rfl, rfl⟩
  · intro u h0 h1 h2
    simp [drawScene, beforeDraw, TextureUnits.run, TextureUnits.exec, setPositionAttributes,
      setTextureAttribute, Cmd.isDraw, List.takeWhile, h0, h1, h2]
  · intro u
    simp only [drawScene, beforeDraw, TextureUnits.run, TextureUnits.exec, TextureUnits.fresh,
      setPositionAttributes, setTextureAttribute, Cmd.isDraw, List.takeWhile, List.cons_append,
      List.nil_append, List.foldl_cons, List.foldl_nil, Bool.not_false, Bool.not_true]
    by_cases h2 : u = 2
    · simp [h2]
    · by_cases h1 : u = 1
      · simp [h1]
      · by_cases h0 : u = 0
        · simp [h0]
        · simp [h0, h1, h2]

/-! ### One tick of the render loop -/

/-- C6.  One tick of `render`, for every value `n` of `video.readyState` and from any
texture-unit state: the tick uploads the video frame into `videoTexture`, and nothing else, when
`n >= 3`, and uploads nothing otherwise; it never creates a texture; its calls are the optional
`updateTexture`, then the calls of one `drawScene`, then one `requestAnimationFrame`; so it
issues exactly one draw and schedules exactly one next tick, with the same four arguments. -/
theorem render_tick (gl : GLContext) (info : ProgramInfo) (buffers : Buffers)
    (t1 t2 videoTexture : Texture) (video : Media) (n : Nat) (s : TextureUnits) :
    textureUploads s (render gl info buffers t1 t2 videoTexture video n) =
      (if 3 ≤ n then [(some videoTexture, video)] else []) ∧
    ((some videoTexture, video) ∈
      textureUploads s (render gl info buffers t1 t2 videoTexture video n) ↔ 3 ≤ n) ∧
    (render gl info buffers t1 t2 videoTexture video n).filter Cmd.isCreateTexture = [] ∧
    render gl info buffers t1 t2 videoTexture video n =
      (if 3 ≤ n then updateTexture videoTexture video else [])
        ++ drawScene gl info buffers t1 t2 videoTexture
        ++ [Cmd.requestAnimationFrame ⟨t1, t2, videoTexture, video⟩] ∧
    (render gl info buffers t1 t2 videoTexture video n).filter Cmd.isDraw =
      [Cmd.drawArraysTriangles 0 6] ∧
    (render gl info buffers t1 t2 videoTexture video n).filter Cmd.isRequestAnimationFrame =
      [Cmd.requestAnimationFrame ⟨t1, t2, videoTexture, video⟩] := by
  by_cases h : 3 ≤ n
  · have hr : render gl info buffers t1 t2 videoTexture video n =
        updateTexture videoTexture video ++ drawScene gl info buffers t1 t2 videoTexture
          ++ [Cmd.requestAnimationFrame ⟨t1, t2, videoTexture, video⟩] := by
      simp [render, h]
    rw [hr]
    simp only [h, if_true]
    refine ⟨?_, ?_, rfl, trivial, rfl, rfl⟩
    · simp [updateTexture, drawScene, setPositionAttributes, setTextureAttribute,
        textureUploads, TextureUnits.exec]
    · simp [updateTexture, drawScene, setPositionAttributes, setTextureAttribute,
        textureUploads, TextureUnits.exec]
  · have hr : render gl info buffers t1 t2 videoTexture video n =
        drawScene gl info buffers t1 t2 videoTexture
          ++ [Cmd.requestAnimationFrame ⟨t1, t2, videoTexture, video⟩] := by
      simp [render, h]
    rw [hr]
    simp only [h, if_false]
    refine ⟨rfl, ?_, rfl, by simp, rfl, rfl⟩
    simp [drawScene, setPositionAttributes, setTextureAttribute, textureUploads]

/-! ### Uniform handles -/

/-- C9, evaluated on the code.  Whatever the context and the program, the `programInfo` record
of the script has no property `modelViewMatrix` (it holds the location resolved for
`uModelViewMatrix` under the key `modelMatrix`), so the read in `drawScene` yields `undefined`
and the model-view matrix is handed to `gl.uniformMatrix4fv` with the location `undefined`. -/
theorem drawScene_modelViewMatrix_location_undefined (gl : GLContext)
    (shaderProgram : Option Program) (buffers : Buffers)
    (texture1 texture2 videoTexture : Texture) :
    getProp (programInfo gl shaderProgram).uniformLocations "modelViewMatrix" = none ∧
    getProp (programInfo gl shaderProgram).uniformLocations "modelMatrix" =
      some (gl.getUniformLocation shaderProgram "uModelViewMatrix") ∧
    Cmd.uniformMatrix4fv none false (Mat4.translate Mat4.create 0 0 (-6)) ∈
      drawScene gl (programInfo gl shaderProgram) buffers texture1 texture2 videoTexture ∧
    ∀ location, Cmd.uniformMatrix4fv (some location) false (Mat4.translate Mat4.create 0 0 (-6)) ∉
      drawScene gl (programInfo gl shaderProgram) buffers texture1 texture2 videoTexture := by
  refine ⟨rfl, rfl, ?_, ?_⟩
  · simp [drawScene, getProp, programInfo, List.lookup]
  · intro location
    simp [drawScene, getProp, programInfo, List.lookup, setPositionAttributes,
      setTextureAttribute]

/-! ### Video readiness gate -/

/-- Delivering one more event is one more step. -/
theorem VideoGate.run_append_event (es : List VideoEvent) (e : VideoEvent) :
    VideoGate.run (es ++ [e]) = (VideoGate.run es).step e := by
  simp [VideoGate.run, List.foldl_append]

/-- The state of the gate after any sequence of events, in closed form: each flag is set exactly
when its event has occurred; while one kind is missing `resolve` has not been called and the
promise is pending; once both kinds have occurred `resolve` has been called and the promise has
been fulfilled exactly once. -/
theorem VideoGate.run_spec (es : List VideoEvent) :
    ((VideoGate.run es).playing = true ↔ VideoEvent.playing ∈ es) ∧
    ((VideoGate.run es).timeupdate = true ↔ VideoEvent.timeupdate ∈ es) ∧
    (¬ (VideoEvent.playing ∈ es ∧ VideoEvent.timeupdate ∈ es) →
      (VideoGate.run es).resolveCalls = 0 ∧ (VideoGate.run es).promise = Promise.pending) ∧
    ((VideoEvent.playing ∈ es ∧ VideoEvent.timeupdate ∈ es) →
      0 < (VideoGate.run es).resolveCalls ∧ (VideoGate.run es).promise = ⟨true, 1⟩) := by
  induction es using List.reverseRecOn with
  | nil => simp [VideoGate.run, setupVideo]
  | append_singleton es e ih =>
    rw [VideoGate.run_append_event]
    generalize VideoGate.run es = g at ih
    obtain ⟨p, t, rc, ⟨res, ful⟩⟩ := g
    obtain ⟨ih1, ih2, ih3, ih4⟩ := ih
    simp only at ih1 ih2 ih3 ih4
    cases e <;> cases p <;> cases t <;>
      simp_all [VideoGate.step, VideoGate.onPlaying, VideoGate.onTimeupdate,
        VideoGate.callResolve, Promise.resolve, Promise.pending]

/-- C2.  Video readiness gate of `setupVideo`, starting from both flags `false`.  For every
finite sequence of `playing` and `timeupdate` events: each flag latches, being set exactly when
its event has occurred; `resolve` has not been invoked after any sequence that lacks one of the
two kinds; and at the first event after which both kinds have occurred `resolve` is invoked (no
call before that event, one call after it).  In particular, in both orders `playing`,
`timeupdate` and `timeupdate`, `playing` there is no call after the first event and one call
after the second. -/
theorem setupVideo_gate :
    (∀ es : List VideoEvent,
      ((VideoGate.run es).playing = true ↔ VideoEvent.playing ∈ es) ∧
      ((VideoGate.run es).timeupdate = true ↔ VideoEvent.timeupdate ∈ es)) ∧
    (∀ es : List VideoEvent, (VideoEvent.playing ∉ es ∨ VideoEvent.timeupdate ∉ es) →
      (VideoGate.run es).resolveCalls = 0) ∧
    (∀ (es : List VideoEvent) (e : VideoEvent),
      (VideoEvent.playing ∉ es ∨ VideoEvent.timeupdate ∉ es) →
      VideoEvent.playing ∈ es ++ [e] → VideoEvent.timeupdate ∈ es ++ [e] →
      (VideoGate.run es).resolveCalls = 0 ∧ (VideoGate.run (es ++ [e])).resolveCalls = 1) ∧
    (VideoGate.run [VideoEvent.playing]).resolveCalls = 0 ∧
    (VideoGate.run [VideoEvent.playing, VideoEvent.timeupdate]).resolveCalls = 1 ∧
    (VideoGate.run [VideoEvent.timeupdate]).resolveCalls = 0 ∧
    (VideoGate.run [VideoEvent.timeupdate, VideoEvent.playing]).resolveCalls = 1 := by
  refine ⟨fun es => ⟨(VideoGate.run_spec es).1, (VideoGate.run_spec es).2.1⟩, ?_, ?_,
    by decide, by decide, by decide, by decide⟩
  · intro es h
    exact ((VideoGate.run_spec es).2.2.1 (by tauto)).1
  · intro es e h hp ht
    have h0 := (VideoGate.run_spec es).2.2.1 (by tauto)
    refine ⟨h0.1, ?_⟩
    have hfp := (VideoGate.run_spec es).1
    have hft := (VideoGate.run_spec es).2.1
    rw [VideoGate.run_append_event]
    generalize VideoGate.run es = g at h0 hfp hft
    obtain ⟨p, t, rc, pr⟩ := g
    simp only at h0 hfp hft
    obtain ⟨hrc, -⟩ := h0
    subst hrc
    cases e <;> cases p <;> cases t <;>
      simp_all [VideoGate.step, VideoGate.onPlaying, VideoGate.onTimeupdate,
        VideoGate.callResolve]

/-- The gate statement at concrete sequences: after `playing, playing` nothing has been
resolved, and the `timeupdate` that follows makes the first call of `resolve`. -/
theorem setupVideo_gate_witness :
    (VideoGate.run [VideoEvent.playing, VideoEvent.playing]).resolveCalls = 0 ∧
    (VideoGate.run ([VideoEvent.playing, VideoEvent.playing]
      ++ [VideoEvent.timeupdate])).resolveCalls = 1 :=
  setupVideo_gate.2.2.1 [VideoEvent.playing, VideoEvent.playing] VideoEvent.timeupdate
    (Or.inr (by decide)) (by decide) (by decide)

/-- Once both flags are set they stay set, and every further event, of either kind, makes its
listener call `resolve(video)` once more. -/
theorem VideoGate.ready_steps (g : VideoGate) (more : List VideoEvent)
    (hp : g.playing = true) (ht : g.timeupdate = true) :
    (more.foldl VideoGate.step g).resolveCalls = g.resolveCalls + more.length := by
  induction more generalizing g with
  | nil => simp
  | cons e more ih =>
    have hstep : (g.step e).playing = true ∧ (g.step e).timeupdate = true ∧
        (g.step e).resolveCalls = g.resolveCalls + 1 := by
      obtain ⟨p, t, rc, pr⟩ := g
      simp only at hp ht
      subst hp ht
      cases e <;>
        simp [VideoGate.step, VideoGate.onPlaying, VideoGate.onTimeupdate,
          VideoGate.callResolve]
    rw [List.foldl_cons, ih (g.step e) hstep.1 hstep.2.1, hstep.2.2, List.length_cons]
    omega

/-- The event that completes the two kinds makes the first call of `resolve(video)`. -/
theorem VideoGate.first_resolve_call (pre : List VideoEvent) (e : VideoEvent)
    (h : VideoEvent.playing ∉ pre ∨ VideoEvent.timeupdate ∉ pre)
    (hp : VideoEvent.playing ∈ pre ++ [e]) (ht : VideoEvent.timeupdate ∈ pre ++ [e]) :
    (VideoGate.run (pre ++ [e])).resolveCalls = 1 := by
  have h0 := (VideoGate.run_spec pre).2.2.1 (by tauto)
  have hfp := (VideoGate.run_spec pre).1
  have hft := (VideoGate.run_spec pre).2.1
  rw [VideoGate.run_append_event]
  generalize VideoGate.run pre = g at h0 hfp hft
  obtain ⟨p, t, rc, pr⟩ := g
  simp only at h0 hfp hft
  obtain ⟨hrc, -⟩ := h0
  subst hrc
  cases e <;> cases p <;> cases t <;>
    simp_all [VideoGate.step, VideoGate.onPlaying, VideoGate.onTimeupdate,
      VideoGate.callResolve]

/-- C3, counterexample.  After `playing, timeupdate` the gate is ready and `resolve(video)` has
been called once; the `timeupdate` that arrives next makes its listener call `resolve(video)` a
second time, and a `playing` after that a third time. -/
theorem setupVideo_resolves_once_counterexample :
    (VideoGate.run [VideoEvent.playing, VideoEvent.timeupdate]).playing = true ∧
    (VideoGate.run [VideoEvent.playing, VideoEvent.timeupdate]).timeupdate = true ∧
    (VideoGate.run [VideoEvent.playing, VideoEvent.timeupdate]).resolveCalls = 1 ∧
    (VideoGate.run [VideoEvent.playing, VideoEvent.timeupdate,
      VideoEvent.timeupdate]).resolveCalls = 2 ∧
    (VideoGate.run [VideoEvent.playing, VideoEvent.timeupdate,
      VideoEvent.timeupdate, VideoEvent.playing]).resolveCalls = 3 := by
  decide

/-- C3, amended.  Every finite sequence of `playing` and `timeupdate` events that contains both
kinds is `pre ++ [e] ++ more`, where `pre` lacks one kind and `e` completes the two.  Delivered
to the listeners registered by `setupVideo`: no call of `resolve(video)` has been made and the
promise is pending after `pre`; the first call is made at `e`; and each of the events of `more`,
arriving after the gate is ready, makes its listener call `resolve(video)` again, so that
`1 + more.length` calls have been made in all.  The listeners have no guard of their own: that
the promise is nevertheless fulfilled only once (by the first call) is the doing of the promise,
which ignores a call of `resolve` once it is resolved. -/
theorem setupVideo_resolve_calls (pre more : List VideoEvent) (e : VideoEvent)
    (h : VideoEvent.playing ∉ pre ∨ VideoEvent.timeupdate ∉ pre)
    (hp : VideoEvent.playing ∈ pre ++ [e]) (ht : VideoEvent.timeupdate ∈ pre ++ [e]) :
    (VideoGate.run pre).resolveCalls = 0 ∧
    (VideoGate.run pre).promise = Promise.pending ∧
    (VideoGate.run (pre ++ [e])).resolveCalls = 1 ∧
    (VideoGate.run (pre ++ [e] ++ more)).resolveCalls = 1 + more.length ∧
    (VideoGate.run (pre ++ [e] ++ more)).promise.resolved = true ∧
    (VideoGate.run (pre ++ [e] ++ more)).promise.fulfilments = 1 := by
  have h0 := (VideoGate.run_spec pre).2.2.1 (by tauto)
  have h1 := VideoGate.first_resolve_call pre e h hp ht
  have hflags := VideoGate.run_spec (pre ++ [e])
  have hall := ((VideoGate.run_spec (pre ++ [e] ++ more)).2.2.2
    ⟨List.mem_append_left _ hp, List.mem_append_left _ ht⟩).2
  have hrun : VideoGate.run (pre ++ [e] ++ more) =
      more.foldl VideoGate.step (VideoGate.run (pre ++ [e])) := by
    simp [VideoGate.run, List.foldl_append]
  refine ⟨h0.1, h0.2, h1, ?_, ?_, ?_⟩
  · rw [hrun, VideoGate.ready_steps _ more (hflags.1.2 hp) (hflags.2.1.2 ht), h1]
  · rw [hall]
  · rw [hall]

/-- The amended C3 at a concrete sequence: `timeupdate, timeupdate` makes no call, the `playing`
that follows makes the first, and the three events after it make three more. -/
theorem setupVideo_resolve_calls_witness :
    (VideoGate.run [VideoEvent.timeupdate, VideoEvent.timeupdate]).resolveCalls = 0 ∧
    (VideoGate.run ([VideoEvent.timeupdate, VideoEvent.timeupdate]
      ++ [VideoEvent.playing])).resolveCalls = 1 ∧
    (VideoGate.run ([VideoEvent.timeupdate, VideoEvent.timeupdate] ++ [VideoEvent.playing]
      ++ [VideoEvent.playing, VideoEvent.timeupdate, VideoEvent.playing])).resolveCalls
      = 1 + 3 ∧
    (VideoGate.run ([VideoEvent.timeupdate, VideoEvent.timeupdate] ++ [VideoEvent.playing]
      ++ [VideoEvent.playing, VideoEvent.timeupdate,
        VideoEvent.playing])).promise.fulfilments = 1 :=
  have w := setupVideo_resolve_calls [VideoEvent.timeupdate, VideoEvent.timeupdate]
    [VideoEvent.playing, VideoEvent.timeupdate, VideoEvent.playing] VideoEvent.playing
    (Or.inl (by decide)) (by decide) (by decide)
  ⟨w.1, w.2.2.1, w.2.2.2.1, w.2.2.2.2.2⟩

/-! ### Start-up sequence -/

/-- Delivering one more event is one more step. -/
theorem Startup.run_append_step (G : Globals) (rs : Nat) (es : List Event) (e : Event) :
    Startup.run G rs (es ++ [e]) = Startup.step G rs (Startup.run G rs es) e := by
  simp [Startup.run, Startup.runFrom, List.foldl_append]

/-- The invariant holds of the initial state. -/
theorem Startup.inv_init : Startup.Inv [] Startup.init := by
  constructor <;> simp [Startup.init, Promise.pending]

/-- A step from a state whose video listeners are not yet registered keeps the invariant. -/
theorem Startup.inv_step_waiting (G : Globals) (rs : Nat) (es : List Event) (s : Startup)
    (e : Event) (h : Startup.Inv es s) (hg : s.gate = none) :
    Startup.Inv (es ++ [e]) (Startup.step G rs s e) := by
  obtain ⟨h1, h2, h3, h4, -⟩ := h
  obtain ⟨h4a, h4b, h4c, h4d⟩ := h4 hg
  clear h4
  obtain ⟨⟨r1, f1⟩, ⟨r2, f2⟩, rem, ⟨ra, fa⟩, gate, rc, tr⟩ := s
  simp only at h1 h2 h3 h4a h4b h4c h4d hg
  subst hg h4b h4c
  have htr : ∀ c, c ∈ tr ∨ c = Cmd.consoleLog "onload" → c = Cmd.consoleLog "onload" := by
    intro c hc
    rcases hc with hc | hc
    · exact h4d c hc
    · exact hc
  cases r1 <;> cases r2 <;>
    simp only [ite_true, ite_false, Bool.false_eq_true, Bool.true_eq_false, false_iff,
      true_iff] at h1 h2 h3 <;>
    subst h3
  · -- neither image has loaded
    cases e <;> constructor <;>
      simp [Startup.step, Startup.elementFulfilled, Promise.resolve, Startup.videoEvent,
        h1, h2] <;>
      first | exact htr | exact h4d
  · -- scene2 has loaded
    cases e <;> constructor <;>
      simp [Startup.step, Startup.elementFulfilled, Promise.resolve, Startup.videoEvent,
        Startup.afterImages, setupVideo, Promise.pending, h1, h2] <;>
      first | exact htr | exact h4d | skip
    exact ⟨es, Event.scene1Load, [], by simp, by simp [h1], by simp [h2], by simp, by simp⟩
  · -- scene1 has loaded
    cases e <;> constructor <;>
      simp [Startup.step, Startup.elementFulfilled, Promise.resolve, Startup.videoEvent,
        Startup.afterImages, setupVideo, Promise.pending, h1, h2] <;>
      first | exact htr | exact h4d | skip
    exact ⟨es, Event.scene2Load, [], by simp, by simp [h2], by simp [h1], by simp, by simp⟩
  · exact absurd ⟨h1, h2⟩ h4a

/-- One event at the video gate: each flag latches, and the promise is resolved exactly when
both flags are set, provided that was so before. -/
theorem VideoGate.step_spec (g : VideoGate) (e : VideoEvent)
    (hinv : g.promise.resolved = true ↔ (g.playing = true ∧ g.timeupdate = true)) :
    ((g.step e).playing = true ↔ (g.playing = true ∨ e = VideoEvent.playing)) ∧
    ((g.step e).timeupdate = true ↔ (g.timeupdate = true ∨ e = VideoEvent.timeupdate)) ∧
    ((g.step e).promise.resolved = true ↔
      ((g.step e).playing = true ∧ (g.step e).timeupdate = true)) := by
  obtain ⟨p, t, rc, ⟨r, f⟩⟩ := g
  simp only at hinv
  cases e <;> cases p <;> cases t <;> cases r <;>
    simp_all [VideoGate.step, VideoGate.onPlaying, VideoGate.onTimeupdate,
      VideoGate.callResolve, Promise.resolve]

/-- What a video event changes once the listeners are registered: the gate takes a step, and
`render` is called when that step resolved the promise of the gate. -/
theorem Startup.videoEvent_fields (G : Globals) (rs : Nat) (s : Startup) (e : VideoEvent)
    (g : VideoGate) (hg : s.gate = some g) :
    (Startup.videoEvent G rs s e).scene1Promise = s.scene1Promise ∧
    (Startup.videoEvent G rs s e).scene2Promise = s.scene2Promise ∧
    (Startup.videoEvent G rs s e).remaining = s.remaining ∧
    (Startup.videoEvent G rs s e).gate = some (g.step e) ∧
    (Startup.videoEvent G rs s e).renderCalls =
      (if g.promise.resolved = false ∧ (g.step e).promise.resolved = true
        then s.renderCalls + 1 else s.renderCalls) := by
  unfold Startup.videoEvent
  rw [hg]
  simp only []
  split <;> simp [Startup.afterVideo]

/-- A video event delivered to registered listeners keeps the invariant. -/
theorem Startup.inv_video_started (G : Globals) (rs : Nat) (es : List Event) (s : Startup)
    (e : Event) (ve : VideoEvent) (h : Startup.Inv es s) (g : VideoGate) (hg : s.gate = some g)
    (hp : ve = VideoEvent.playing ↔ e = Event.playing)
    (ht : ve = VideoEvent.timeupdate ↔ e = Event.timeupdate) :
    Startup.Inv (es ++ [e]) (Startup.videoEvent G rs s ve) := by
  obtain ⟨h1, h2, h3, -, h5⟩ := h
  obtain ⟨⟨h5a, h5b⟩, h5c, h5d, pre, e0, post, hes, hpre, hpre2, hgp, hgt⟩ := h5 g hg
  obtain ⟨f1, f2, f3, f4, f5⟩ := Startup.videoEvent_fields G rs s ve g hg
  obtain ⟨s1, s2, s3⟩ := VideoGate.step_spec g ve h5c
  have hm1 : Event.scene1Load ∈ es ++ [e] := List.mem_append_left _ h5a
  have hm2 : Event.scene2Load ∈ es ++ [e] := List.mem_append_left _ h5b
  refine ⟨?_, ?_, ?_, ?_, ?_⟩
  · rw [f1]; exact ⟨fun _ => hm1, fun _ => h1.2 h5a⟩
  · rw [f2]; exact ⟨fun _ => hm2, fun _ => h2.2 h5b⟩
  · rw [f1, f2, f3]; exact h3
  · intro hnone; rw [f4] at hnone; exact absurd hnone (by simp)
  · intro g' hg'
    rw [f4] at hg'
    have hg'' : g.step ve = g' := by simpa using hg'
    subst hg''
    refine ⟨⟨hm1, hm2⟩, s3, ?_, pre, e0, post ++ [e], by simp [hes], hpre, hpre2, ?_, ?_⟩
    · rw [f5]
      by_cases hr : g.promise.resolved = true
      · have : 0 < s.renderCalls := h5d.2 (h5c.1 hr)
        simp only [hr, Bool.true_eq_false, false_and, if_false]
        constructor
        · intro _
          exact ⟨s1.2 (Or.inl (h5c.1 hr).1), s2.2 (Or.inl (h5c.1 hr).2)⟩
        · intro _; exact this
      · have hr' : g.promise.resolved = false := by simpa using hr
        have hrc : ¬ 0 < s.renderCalls := fun hc => hr (h5c.2 (h5d.1 hc))
        simp only [hr', true_and]
        by_cases hn : (g.step ve).promise.resolved = true
        · simp only [hn, if_true]
          exact ⟨fun _ => s3.1 hn, fun _ => Nat.succ_pos _⟩
        · simp only [hn, if_false]
          exact ⟨fun hc => absurd hc hrc, fun hc => absurd (s3.2 hc) hn⟩
    · rw [s1, hgp, hp]; simp [eq_comm]
    · rw [s2, hgt, ht]; simp [eq_comm]

/-- A further `onload` after both images have loaded keeps the invariant: it changes nothing
but the trace. -/
theorem Startup.inv_image_started (es : List Event) (s s' : Startup)
    (e : Event) (h : Startup.Inv es s) (g : VideoGate) (hg : s.gate = some g)
    (hp : e ≠ Event.playing) (ht : e ≠ Event.timeupdate)
    (e1 : s'.scene1Promise = s.scene1Promise) (e2 : s'.scene2Promise = s.scene2Promise)
    (e3 : s'.remaining = s.remaining) (e4 : s'.gate = s.gate)
    (e5 : s'.renderCalls = s.renderCalls) :
    Startup.Inv (es ++ [e]) s' := by
  obtain ⟨h1, h2, h3, -, h5⟩ := h
  obtain ⟨⟨h5a, h5b⟩, h5c, h5d, pre, e0, post, hes, hpre, hpre2, hgp, hgt⟩ := h5 g hg
  have hm1 : Event.scene1Load ∈ es ++ [e] := List.mem_append_left _ h5a
  have hm2 : Event.scene2Load ∈ es ++ [e] := List.mem_append_left _ h5b
  refine ⟨?_, ?_, ?_, ?_, ?_⟩
  · rw [e1]; exact ⟨fun _ => hm1, fun _ => h1.2 h5a⟩
  · rw [e2]; exact ⟨fun _ => hm2, fun _ => h2.2 h5b⟩
  · rw [e1, e2, e3]; exact h3
  · intro hnone; rw [e4, hg] at hnone; exact absurd hnone (by simp)
  · intro g' hg'
    rw [e4, hg] at hg'
    have hg'' : g = g' := by simpa using hg'
    subst hg''
    refine ⟨⟨hm1, hm2⟩, h5c, ?_, pre, e0, post ++ [e], by simp [hes], hpre, hpre2, ?_, ?_⟩
    · rw [e5]; exact h5d
    · rw [hgp]; simp [Ne.symm hp]
    · rw [hgt]; simp [Ne.symm ht]

/-- A step from a state whose video listeners are registered keeps the invariant. -/
theorem Startup.inv_step_started (G : Globals) (rs : Nat) (es : List Event) (s : Startup)
    (e : Event) (h : Startup.Inv es s) (g : VideoGate) (hg : s.gate = some g) :
    Startup.Inv (es ++ [e]) (Startup.step G rs s e) := by
  have hr1 : s.scene1Promise.resolved = true := h.scene1.2 (h.started g hg).1.1
  have hr2 : s.scene2Promise.resolved = true := h.scene2.2 (h.started g hg).1.2
  cases e
  · apply Startup.inv_image_started es s _ _ h g hg (by simp) (by simp) <;>
      simp [Startup.step, hr1]
  · apply Startup.inv_image_started es s _ _ h g hg (by simp) (by simp) <;>
      simp [Startup.step, hr2]
  · exact Startup.inv_video_started G rs es s _ _ h g hg (by simp) (by simp)
  · exact Startup.inv_video_started G rs es s _ _ h g hg (by simp) (by simp)

/-- The invariant holds of every reachable state. -/
theorem Startup.run_inv (G : Globals) (rs : Nat) (es : List Event) :
    Startup.Inv es (Startup.run G rs es) := by
  induction es using List.reverseRecOn with
  | nil => exact Startup.inv_init
  | append_singleton es e ih =>
    rw [Startup.run_append_step]
    cases hg : (Startup.run G rs es).gate with
    | none => exact Startup.inv_step_waiting G rs es _ e ih hg
    | some g => exact Startup.inv_step_started G rs es _ e ih g hg

/-- Function `drawScene` never calls `requestAnimationFrame`. -/
theorem drawScene_no_requestAnimationFrame (gl : GLContext) (info : ProgramInfo)
    (buffers : Buffers) (t1 t2 videoTexture : Texture) :
    (drawScene gl info buffers t1 t2 videoTexture).filter Cmd.isRequestAnimationFrame = [] :=
  rfl

/-- Function `render` calls `requestAnimationFrame` exactly once, with its own arguments. -/
theorem render_one_requestAnimationFrame (gl : GLContext) (info : ProgramInfo)
    (buffers : Buffers) (t1 t2 videoTexture : Texture) (video : Media) (n : Nat) :
    (render gl info buffers t1 t2 videoTexture video n).filter Cmd.isRequestAnimationFrame =
      [Cmd.requestAnimationFrame ⟨t1, t2, videoTexture, video⟩] := by
  unfold render
  split <;> rfl

/-- A step keeps the number of `requestAnimationFrame` calls in the trace equal to the number of
calls of `render`. -/
theorem Startup.step_ticks (G : Globals) (rs : Nat) (s : Startup) (e : Event)
    (h : (s.trace.filter Cmd.isRequestAnimationFrame).length = s.renderCalls) :
    ((Startup.step G rs s e).trace.filter Cmd.isRequestAnimationFrame).length =
      (Startup.step G rs s e).renderCalls := by
  have hd := drawScene_no_requestAnimationFrame G.gl G.programInfo G.buffers G.t1 G.t2
    G.videoTexture
  have hr := render_one_requestAnimationFrame G.gl G.programInfo G.buffers G.t1 G.t2
    G.videoTexture G.video rs
  cases e
  · simp only [Startup.step, Startup.elementFulfilled, Startup.afterImages]
    repeat' split
    all_goals simp [List.filter_append, hd, h, updateTexture, Cmd.isRequestAnimationFrame]
  · simp only [Startup.step, Startup.elementFulfilled, Startup.afterImages]
    repeat' split
    all_goals simp [List.filter_append, hd, h, updateTexture, Cmd.isRequestAnimationFrame]
  · simp only [Startup.step, Startup.videoEvent, Startup.afterVideo]
    repeat' split
    all_goals simp [List.filter_append, hr, h]
  · simp only [Startup.step, Startup.videoEvent, Startup.afterVideo]
    repeat' split
    all_goals simp [List.filter_append, hr, h]

/-- In every reachable state the trace holds one `requestAnimationFrame` call for each call of
`render`. -/
theorem Startup.run_ticks (G : Globals) (rs : Nat) (es : List Event) :
    ((Startup.run G rs es).trace.filter Cmd.isRequestAnimationFrame).length =
      (Startup.run G rs es).renderCalls := by
  induction es using List.reverseRecOn with
  | nil => rfl
  | append_singleton es e ih =>
    rw [Startup.run_append_step]
    exact Startup.step_ticks G rs _ e ih

/-- The event that completes the two images makes exactly these calls: the `console.log` of its
`onload` handler, the viewport, the upload of `scene1` into `t1`, the upload of `scene2` into
`t2`, and one `drawScene`. -/
theorem Startup.first_images_step (G : Globals) (rs : Nat) (es : List Event) (e : Event)
    (h : Event.scene1Load ∉ es ∨ Event.scene2Load ∉ es)
    (h1 : Event.scene1Load ∈ es ++ [e]) (h2 : Event.scene2Load ∈ es ++ [e]) :
    (Startup.run G rs (es ++ [e])).trace =
      (Startup.run G rs es).trace
        ++ [Cmd.consoleLog "onload", Cmd.viewport 0 0 G.gl.canvasWidth G.gl.canvasHeight]
        ++ updateTexture G.t1 G.scene1
        ++ updateTexture G.t2 G.scene2
        ++ drawScene G.gl G.programInfo G.buffers G.t1 G.t2 G.videoTexture := by
  have inv := Startup.run_inv G rs es
  rw [Startup.run_append_step]
  generalize Startup.run G rs es = s at inv
  have hg : s.gate = none := by
    cases hg : s.gate with
    | none => rfl
    | some g => exact absurd (inv.started g hg).1 (by tauto)
  obtain ⟨i1, i2, i3, i4, -⟩ := inv
  obtain ⟨-, i4b, -, -⟩ := i4 hg
  obtain ⟨⟨r1, f1⟩, ⟨r2, f2⟩, rem, ⟨ra, fa⟩, gate, rc, tr⟩ := s
  simp only at i1 i2 i3 i4b hg
  subst hg i4b
  rcases h with h | h
  · have he : e = Event.scene1Load := by
      rcases List.mem_append.1 h1 with h' | h'
      · exact absurd h' h
      · exact (List.mem_singleton.1 h').symm
    subst he
    have hs2 : Event.scene2Load ∈ es := by
      rcases List.mem_append.1 h2 with h' | h'
      · exact h'
      · simp at h'
    have hr1 : r1 = false := by
      cases r1
      · rfl
      · exact absurd (i1.1 rfl) h
    have hr2 : r2 = true := i2.2 hs2
    subst hr1 hr2
    simp only [ite_true, ite_false, Bool.false_eq_true] at i3
    subst i3
    simp [Startup.step, Startup.elementFulfilled, Startup.afterImages, Promise.resolve]
  · have he : e = Event.scene2Load := by
      rcases List.mem_append.1 h2 with h' | h'
      · exact absurd h' h
      · exact (List.mem_singleton.1 h').symm
    subst he
    have hs1 : Event.scene1Load ∈ es := by
      rcases List.mem_append.1 h1 with h' | h'
      · exact h'
      · simp at h'
    have hr2 : r2 = false := by
      cases r2
      · rfl
      · exact absurd (i2.1 rfl) h
    have hr1 : r1 = true := i1.2 hs1
    subst hr1 hr2
    simp only [ite_true, ite_false, Bool.false_eq_true] at i3
    subst i3
    simp [Startup.step, Startup.elementFulfilled, Startup.afterImages, Promise.resolve]

/-- The first call of `render` has happened exactly when the events split into a part that
contains both image loads followed by a part that contains both video events. -/
theorem Startup.render_iff (G : Globals) (rs : Nat) (es : List Event) :
    (0 < (Startup.run G rs es).renderCalls ↔
      ∃ pre post, es = pre ++ post ∧ Event.scene1Load ∈ pre ∧ Event.scene2Load ∈ pre ∧
        Event.playing ∈ post ∧ Event.timeupdate ∈ post) := by
  have inv := Startup.run_inv G rs es
  generalize Startup.run G rs es = s at inv
  constructor
  · intro hpos
    cases hg : s.gate with
    | none =>
      have := (inv.waiting hg).2.2.1
      omega
    | some g =>
      obtain ⟨-, -, hrc, pre, e0, post, hes, -, hpre2, hp, ht⟩ := inv.started g hg
      exact ⟨pre ++ [e0], post, by simp [hes], hpre2.1, hpre2.2, hp.1 (hrc.1 hpos).1,
        ht.1 (hrc.1 hpos).2⟩
  · rintro ⟨pre', post', hes', m1, m2, mp, mt⟩
    have hm1 : Event.scene1Load ∈ es := by rw [hes']; exact List.mem_append_left _ m1
    have hm2 : Event.scene2Load ∈ es := by rw [hes']; exact List.mem_append_left _ m2
    cases hg : s.gate with
    | none => exact absurd ⟨hm1, hm2⟩ (inv.waiting hg).1
    | some g =>
      obtain ⟨-, -, hrc, pre, e0, post, hes, hpre, -, hp, ht⟩ := inv.started g hg
      have hsuf : ∃ a, post = a ++ post' := by
        have heq : pre ++ e0 :: post = pre' ++ post' := by rw [← hes, hes']
        rcases List.append_eq_append_iff.1 heq with ⟨a, ha, hb⟩ | ⟨c, hc, hd⟩
        · cases a with
          | nil =>
            simp only [List.append_nil] at ha
            subst ha
            exact absurd ⟨m1, m2⟩ hpre
          | cons x a' =>
            simp only [List.cons_append, List.cons.injEq] at hb
            exact ⟨a', hb.2⟩
        · subst hc
          exact absurd ⟨List.mem_append_left _ m1, List.mem_append_left _ m2⟩ hpre
      obtain ⟨a, ha⟩ := hsuf
      subst ha
      exact hrc.2 ⟨hp.2 (List.mem_append_right _ mp), ht.2 (List.mem_append_right _ mt)⟩

/-- C7.  Image readiness gate of the start-up sequence, as a step relation over the events.
After any sequence of events in which one of the two images has not fired `onload` (in either
order, and whatever video events occurred meanwhile), the only calls made are the `console.log`
calls of the `onload` handlers: no graphics call at all, so no texture update and no `drawScene`,
and no call of `render`.  The event that makes both images loaded adds to the trace, after the
`console.log` of its handler and the viewport call, the update of `t1` from `scene1`, then the
update of `t2` from `scene2`, then the calls of the first `drawScene`. -/
theorem startup_image_gate (G : Globals) (rs : Nat) :
    (∀ es : List Event, (Event.scene1Load ∉ es ∨ Event.scene2Load ∉ es) →
      (∀ c ∈ (Startup.run G rs es).trace, c = Cmd.consoleLog "onload") ∧
      (Startup.run G rs es).trace.filter Cmd.isGraphics = [] ∧
      (Startup.run G rs es).renderCalls = 0) ∧
    (∀ (es : List Event) (e : Event), (Event.scene1Load ∉ es ∨ Event.scene2Load ∉ es) →
      Event.scene1Load ∈ es ++ [e] → Event.scene2Load ∈ es ++ [e] →
      (Startup.run G rs (es ++ [e])).trace =
        (Startup.run G rs es).trace
          ++ [Cmd.consoleLog "onload", Cmd.viewport 0 0 G.gl.canvasWidth G.gl.canvasHeight]
          ++ updateTexture G.t1 G.scene1
          ++ updateTexture G.t2 G.scene2
          ++ drawScene G.gl G.programInfo G.buffers G.t1 G.t2 G.videoTexture) := by
  refine ⟨?_, fun es e h h1 h2 => Startup.first_images_step G rs es e h h1 h2⟩
  intro es h
  have inv := Startup.run_inv G rs es
  have hg : (Startup.run G rs es).gate = none := by
    cases hg : (Startup.run G rs es).gate with
    | none => rfl
    | some g => exact absurd (inv.started g hg).1 (by tauto)
  obtain ⟨-, -, hrc, htr⟩ := inv.waiting hg
  refine ⟨htr, ?_, hrc⟩
  rw [List.filter_eq_nil_iff]
  intro c hc
  rw [htr c hc]
  simp [Cmd.isGraphics]

/-- The image gate at a concrete run: after `scene1Load, playing` nothing but `console.log` has
been called, and the `scene2Load` that follows uploads both images and draws. -/
theorem startup_image_gate_witness :
    (Startup.run exampleGlobals 4 ([Event.scene1Load, Event.playing]
        ++ [Event.scene2Load])).trace =
      (Startup.run exampleGlobals 4 [Event.scene1Load, Event.playing]).trace
        ++ [Cmd.consoleLog "onload",
            Cmd.viewport 0 0 exampleGlobals.gl.canvasWidth exampleGlobals.gl.canvasHeight]
        ++ updateTexture exampleGlobals.t1 exampleGlobals.scene1
        ++ updateTexture exampleGlobals.t2 exampleGlobals.scene2
        ++ drawScene exampleGlobals.gl exampleGlobals.programInfo exampleGlobals.buffers
            exampleGlobals.t1 exampleGlobals.t2 exampleGlobals.videoTexture :=
  (startup_image_gate exampleGlobals 4).2 [Event.scene1Load, Event.playing] Event.scene2Load
    (Or.inr (by decide)) (by decide) (by decide)

/-- C10.  Ordering of the two gates.  While one of the two images has not loaded, the video
listeners are not registered, and a `playing` or `timeupdate` event leaves the state exactly as
it was: it does not count toward video readiness.  For every event sequence, the first call of
`render` has happened if and only if the sequence splits into a first part in which both images
load and a second part in which both a `playing` and a `timeupdate` occur, that is, if and only
if some `playing` and some `timeupdate` both occur after the later of the two image loads.  The
calls of `render` are the `requestAnimationFrame` calls of the trace. -/
theorem startup_render_after_both_gates (G : Globals) (rs : Nat) (es : List Event) :
    ((Event.scene1Load ∉ es ∨ Event.scene2Load ∉ es) →
      (Startup.run G rs es).gate = none ∧
      ∀ e, (e = Event.playing ∨ e = Event.timeupdate) →
        Startup.run G rs (es ++ [e]) = Startup.run G rs es) ∧
    (0 < (Startup.run G rs es).renderCalls ↔
      ∃ pre post, es = pre ++ post ∧ Event.scene1Load ∈ pre ∧ Event.scene2Load ∈ pre ∧
        Event.playing ∈ post ∧ Event.timeupdate ∈ post) ∧
    ((Startup.run G rs es).trace.filter Cmd.isRequestAnimationFrame).length =
      (Startup.run G rs es).renderCalls := by
  refine ⟨?_, Startup.render_iff G rs es, Startup.run_ticks G rs es⟩
  intro h
  have inv := Startup.run_inv G rs es
  have hg : (Startup.run G rs es).gate = none := by
    cases hg : (Startup.run G rs es).gate with
    | none => rfl
    | some g => exact absurd (inv.started g hg).1 (by tauto)
  refine ⟨hg, ?_⟩
  rintro e (rfl | rfl) <;> rw [Startup.run_append_step] <;>
    simp [Startup.step, Startup.videoEvent, hg]

/-- The ordering at concrete runs: video events that come before the second image do not start
the render loop, even if both kinds occur; the same events after both images do. -/
theorem startup_render_after_both_gates_witness :
    ¬ (0 < (Startup.run exampleGlobals 4 [Event.scene1Load, Event.playing, Event.timeupdate,
      Event.scene2Load, Event.playing]).renderCalls) ∧
    0 < (Startup.run exampleGlobals 4 [Event.scene2Load, Event.scene1Load, Event.timeupdate,
      Event.playing]).renderCalls :=
  ⟨by decide,
   (startup_render_after_both_gates exampleGlobals 4 [Event.scene2Load, Event.scene1Load,
      Event.timeupdate, Event.playing]).2.1.2
    ⟨[Event.scene2Load, Event.scene1Load], [Event.timeupdate, Event.playing], rfl,
      by decide, by decide, by decide, by decide⟩⟩

end TrackMatte
